import Mathlib

/-!
Verification development for the `avail-light` snapshot consisting of
`src/network2/libp2p/connection/noise.rs` (the post-handshake Noise transport:
`Noise::inject_inbound_data`, `Noise::inject_outbound_data`, `Noise::write_out`)
and `src/chain/chain_information.rs` (`ChainInformation`, `ChainInformationRef`,
`ChainInformation::from_genesis_storage`).

Bytes are modelled as `Nat` (values < 256 in practice; no arithmetic on byte
values is performed by the code under study, so no wrapping is needed).
`VecDeque<u8>` logical content is a `List Nat`; where the Rust code depends on
the deque's internal ring layout (`as_slices` / `as_mut_slices`), the length of
the first contiguous slice is passed in as an explicit `split` parameter, since
the layout is not determined by the logical content alone.  A Rust panic is
modelled as the `Option.none` result.  `debug_assert!` statements are compiled
out in release builds and are therefore not part of the modelled behaviour.
-/

namespace AvailLight

/-! ## Model of the external `snow` crate (AEAD transport), from the spec

The `snow` crate is an external dependency, not code of this repository.  Its
behaviour is modelled from the spec (§4.2 CipherSession, §6 wire format): the
ciphertext of a message is the plaintext plus a fixed 16-byte authentication
tag (`Noise_XX_25519_ChaChaPoly_SHA256`); decryption verifies the tag and
fails otherwise; the maximum noise message length is 65535 bytes;
`write_message` fails when the output buffer is smaller than
`plaintext + tag`, and `read_message` fails when the message is oversized or
the tag does not verify.  The cipher body is modelled as an identity keystream:
the model is faithful in all lengths, in nonce usage and in tag verification
structure, which is what the claims under study depend on. -/

/-- Fixed AEAD authentication-tag overhead of ChaChaPoly (16 bytes). -/
def TAG_LEN : Nat := 16

/-- Maximum length of a noise transport message (ciphertext), 65535 bytes. -/
def MAX_MSG_LEN : Nat := 65535

/-- Deterministic model of the AEAD tag for a given nonce and plaintext. -/
def aeadTag (nonce : Nat) (pt : List Nat) : List Nat :=
  nonce % 256 :: pt.length % 256 :: List.replicate (TAG_LEN - 2) 0

/-- AEAD encryption model: ciphertext body (identity keystream) plus tag.
The ciphertext length is `pt.length + TAG_LEN`, as in the spec. -/
def aeadEncrypt (nonce : Nat) (pt : List Nat) : List Nat :=
  pt ++ aeadTag nonce pt

/-- AEAD decryption model: strips and verifies the 16-byte tag; `none` when
the message is too short or the tag does not verify. -/
def aeadDecrypt (nonce : Nat) (ct : List Nat) : Option (List Nat) :=
  if TAG_LEN ≤ ct.length then
    let pt := ct.take (ct.length - TAG_LEN)
    if ct.drop (ct.length - TAG_LEN) = aeadTag nonce pt then some pt else none
  else none

/-- `snow::TransportState::write_message(payload, out_buf)`: fails (`Err`)
when the output buffer cannot hold `payload + tag` or the resulting message
would exceed the 65535-byte noise limit; on success returns the ciphertext
(the number of bytes written is its length). -/
def snowWriteMessage (nonce : Nat) (payload : List Nat) (outLen : Nat) :
    Option (List Nat) :=
  if payload.length + TAG_LEN ≤ outLen ∧ payload.length + TAG_LEN ≤ MAX_MSG_LEN
  then some (aeadEncrypt nonce payload)
  else none

/-- `snow::TransportState::read_message(message, out_buf)`: fails on an
oversized message, on tag-verification failure, or when the plaintext does
not fit the output buffer. -/
def snowReadMessage (nonce : Nat) (message : List Nat) (outLen : Nat) :
    Option (List Nat) :=
  if message.length ≤ MAX_MSG_LEN then
    (aeadDecrypt nonce message).bind fun pt =>
      if pt.length ≤ outLen then some pt else none
  else none

/-! ## The `Noise` state (noise.rs lines 9-20) -/

/-- State of `Noise` (noise.rs lines 9-20).  The `snow::TransportState` inner
field is modelled by its two direction nonce counters (the keys are fixed for
the session and implicit in the AEAD model). -/
structure Noise where
  sendNonce : Nat
  recvNonce : Nat
  /-- Buffer of data received on the wire, before decryption (`VecDeque<u8>`). -/
  rx_buffer_encrypted : List Nat
  /-- Buffer of data received on the wire, after decryption (`Vec<u8>`). -/
  rx_buffer_decrypted : List Nat
  /-- Buffer of data to send on the wire, after encryption (`VecDeque<u8>`). -/
  tx_buffer_encrypted : List Nat
deriving Repr, DecidableEq

/-- A freshly established session: zero nonces, all buffers empty. -/
def noise0 : Noise := ⟨0, 0, [], [], []⟩

/-! ## List helpers mirroring `Vec` / `VecDeque` operations -/

/-- `Vec::resize(n, v)` / `VecDeque::resize(n, v)` on the logical contents. -/
def listResize (l : List Nat) (n : Nat) (v : Nat) : List Nat :=
  if n ≤ l.length then l.take n else l ++ List.replicate (n - l.length) v

/-- Overwrite `xs.length` entries of `l` starting at index `i` with `xs`
(models writing into a mutable sub-slice beginning at logical index `i`). -/
def overwriteAt (l : List Nat) (i : Nat) (xs : List Nat) : List Nat :=
  l.take i ++ xs ++ l.drop (i + xs.length)

/-- `u16::to_be_bytes` of a value below 65536: (high byte, low byte). -/
def toBE16 (x : Nat) : Nat × Nat := (x / 256, x % 256)

/-- `u16::try_from(x)`: succeeds exactly when `x ≤ 65535`. -/
def u16_try_from (x : Nat) : Option Nat :=
  if x ≤ 65535 then some x else none

/-! ## `slice::chunks` (used at noise.rs line 43)

Rust's `chunks(n)` yields consecutive sub-slices of length `n`, the last one
possibly shorter, and yields nothing on an empty slice.  Implemented with a
structural fuel argument (`fuel = l.length` suffices for `n ≥ 1`, since each
step removes at least one element). -/

/-- Worker for `chunks`; structural recursion on the fuel. -/
def chunksGo (n : Nat) : Nat → List Nat → List (List Nat)
  | 0, _ => []
  | _ + 1, [] => []
  | fuel + 1, a :: t => (a :: t).take n :: chunksGo n fuel ((a :: t).drop n)

/-- Rust `slice::chunks(n)` on the list model (for `n ≥ 1`). -/
def chunks (n : Nat) (l : List Nat) : List (List Nat) :=
  chunksGo n l.length l

/-! ## `Noise::inject_inbound_data` (noise.rs lines 24-34)

The Rust function: appends the payload to `rx_buffer_encrypted`, resizes
`rx_buffer_decrypted` to `payload.len()`, calls
`read_message(payload, &mut rx_buffer_decrypted)` on the RAW payload (not on
the buffered queue, with no length-prefix parsing), and DISCARDS the returned
`Result` (`let _written = ...`; the trailing comments are
`// TODO: continue` and `// TODO: check _written`).  It returns `()`: there is
no error channel.  On decryption success snow writes the plaintext into the
front of the output buffer and advances the receive nonce; on failure the
result is discarded and execution continues normally. -/

def inject_inbound_data (n : Noise) (payload : List Nat) : Noise :=
  let rxe := n.rx_buffer_encrypted ++ payload
  let dec0 := listResize n.rx_buffer_decrypted payload.length 0
  match snowReadMessage n.recvNonce payload payload.length with
  | some pt =>
      { n with
        rx_buffer_encrypted := rxe
        rx_buffer_decrypted := overwriteAt dec0 0 pt
        recvNonce := n.recvNonce + 1 }
  | none =>
      { n with
        rx_buffer_encrypted := rxe
        rx_buffer_decrypted := dec0 }

/-! ## `Noise::inject_outbound_data` (noise.rs lines 40-83)

Per 65535-byte chunk of the payload (lines 50-81): let `before` be the current
queue length; resize the queue to `before + 2 + chunk.len()` (note: NOT
`+ TAG_LEN`); write `u16::try_from(chunk.len()).unwrap().to_be_bytes()` at
logical indices `before` and `before + 1`; take `as_mut_slices()`, shrink
slice 1 by `before.saturating_sub(s0.len())` from its front and slice 0 to its
last `before` elements (`s0[s0.len().saturating_sub(before)..]`); encrypt
`chunk[..to_write0]` into slice 0 and, if anything remains, `chunk[to_write0..]`
into slice 1, unwrapping both results (a failed `write_message` is a panic,
modelled as `none`).  `split` is the length of `as_mut_slices().0`. -/

def injectOutboundChunkBody (split nonce : Nat) (tx payload : List Nat) :
    Option (List Nat × Nat) :=
  let before := tx.length
  let buf0 := listResize tx (before + 2 + payload.length) 0
  if 65536 ≤ payload.length then none
  else
    let b := toBE16 payload.length
    let buf1 := (buf0.set before b.1).set (before + 1) b.2
    let s0 := buf1.take split
    let s1 := buf1.drop split
    let s1x := s1.drop (before - s0.length)
    let s0x := s0.drop (s0.length - before)
    let tw0 := min s0x.length payload.length
    match snowWriteMessage nonce (payload.take tw0) s0x.length with
    | none => none
    | some ct0 =>
      let buf2 := overwriteAt buf1 (s0.length - before) ct0
      if tw0 = payload.length then some (buf2, nonce + 1)
      else
        match snowWriteMessage (nonce + 1) (payload.drop tw0) s1x.length with
        | none => none
        | some ct1 =>
            some (overwriteAt buf2 (split + (before - s0.length)) ct1, nonce + 2)

/-- The `for payload in payload.chunks(65535)` loop of
`inject_outbound_data`.  `splits` is the oracle giving, per iteration, the
length of `as_mut_slices().0` after the resize (the deque ring layout is not
determined by the logical contents; the theorems below hold for every oracle). -/
def injectOutboundLoop (splits : List Nat) :
    Nat → Nat → List Nat → List (List Nat) → Option (List Nat × Nat)
  | _, nonce, tx, [] => some (tx, nonce)
  | i, nonce, tx, c :: rest =>
    match injectOutboundChunkBody (splits.getD i (tx.length + 2 + c.length))
        nonce tx c with
    | none => none
    | some (tx2, n2) => injectOutboundLoop splits (i + 1) n2 tx2 rest

/-- `Noise::inject_outbound_data` (noise.rs lines 40-83); `none` models a
panic inside the loop. -/
def inject_outbound_data (splits : List Nat) (n : Noise) (payload : List Nat) :
    Option Noise :=
  match injectOutboundLoop splits 0 n.sendNonce n.tx_buffer_encrypted
      (chunks 65535 payload) with
  | none => none
  | some (tx, nonce2) =>
      some { n with tx_buffer_encrypted := tx, sendNonce := nonce2 }

/-! ## `Noise::write_out` (noise.rs lines 87-95)

`to_write = tx_buffer_encrypted.as_slices().0` (first contiguous slice only,
its length given by the `split` oracle); `to_write_len = min(to_write.len(),
destination.len())`; then `destination.copy_from_slice(&to_write[..to_write_len])`,
which PANICS unless `destination.len() == to_write_len`; then pops
`to_write_len` bytes off the front and returns `to_write_len`.  The returned
triple is (new state, bytes now in `destination`, return value); `none` models
the `copy_from_slice` panic. -/

def write_out (split : Nat) (n : Noise) (dest : List Nat) :
    Option (Noise × List Nat × Nat) :=
  let to_write := n.tx_buffer_encrypted.take split
  let to_write_len := min to_write.length dest.length
  if dest.length = to_write_len then
    some ({ n with tx_buffer_encrypted := n.tx_buffer_encrypted.drop to_write_len },
          to_write.take to_write_len, to_write_len)
  else none

/-! ## The single-contiguous-buffer fallback framing, from the spec

For the refinement claim about the vectorized write path, this definition
follows the spec's words (§4.4 / §9): encrypt the whole chunk once with the
send-direction cipher, then append to the queue a 2-byte big-endian prefix
holding the ciphertext length, followed by the ciphertext. -/
def specFallbackFrame (nonce : Nat) (payload : List Nat) : List Nat :=
  let ct := aeadEncrypt nonce payload
  ct.length / 256 :: ct.length % 256 :: ct

/-! ## Helper lemmas -/

/-- With an empty transmit queue (`before = 0`), the chunk body of
`inject_outbound_data` always panics: slice 0 is cut to its last `0` elements,
so the first `write_message` receives a 0-length output buffer, fails, and the
`unwrap()` panics — for every deque layout `split`, nonce and payload. -/
lemma chunkBody_empty_tx (split nonce : Nat) (payload : List Nat) :
    injectOutboundChunkBody split nonce [] payload = none := by
  unfold injectOutboundChunkBody
  by_cases h : 65536 ≤ payload.length
  · simp [h]
  · simp [h, snowWriteMessage, TAG_LEN, List.drop_length]

lemma chunksGo_nil (n fuel : Nat) : chunksGo n fuel [] = [] := by
  cases fuel <;> rfl

/-- Every chunk produced by `chunksGo` (for a positive chunk size) is
non-empty and no longer than the chunk size. -/
lemma chunksGo_mem {n : Nat} (hn : 0 < n) :
    ∀ (fuel : Nat) (l c : List Nat),
      c ∈ chunksGo n fuel l → c ≠ [] ∧ c.length ≤ n := by
  intro fuel
  induction fuel with
  | zero => intro l c h; simp [chunksGo] at h
  | succ f ih =>
    intro l c h
    match l with
    | [] => simp [chunksGo] at h
    | a :: t =>
      simp only [chunksGo, List.mem_cons] at h
      rcases h with h | h
      · subst h
        obtain ⟨m, hm⟩ := Nat.exists_eq_succ_of_ne_zero (Nat.pos_iff_ne_zero.mp hn)
        subst hm
        refine ⟨by simp, ?_⟩
        simp
      · exact ih _ _ h

/-- `chunks n l = [l]` when `l` is non-empty and fits in one chunk. -/
lemma chunks_eq_single {n : Nat} {l : List Nat} (h1 : l ≠ []) (h2 : l.length ≤ n) :
    chunks n l = [l] := by
  unfold chunks
  match l, h1 with
  | a :: t, _ =>
    show chunksGo n (t.length + 1) (a :: t) = [a :: t]
    simp [chunksGo, List.take_of_length_le h2, List.drop_eq_nil_of_le h2,
      chunksGo_nil]

/-! ## Claim theorems for the Noise transport -/

/-- C1: the claimed round trip (all `write()` inputs re-emerge, in order, from
the peer's `take_decrypted` under arbitrary fragmentation) fails at the very
first step on the code: on a fresh session (empty TransmitQueue) the first
`inject_outbound_data` call panics for every payload chunking layout
(`write_message` is handed a 0-length output slice and its `unwrap()` fires),
so no bytes ever reach the wire, let alone round-trip. -/
theorem roundtrip_first_write_panics (splits : List Nat) :
    inject_outbound_data splits noise0 [42] = none := by
  unfold inject_outbound_data
  have hc : chunks 65535 [42] = [[42]] := rfl
  rw [hc]
  simp [injectOutboundLoop, chunkBody_empty_tx, noise0]

/-- C2: `inject_inbound_data` never removes anything from RawInboundQueue —
the queue only ever grows by the appended payload, for every state and every
received chunk.  This refutes the claimed behaviour that a fully buffered
frame is removed from the front of the queue, decrypted, and its plaintext
appended (the code decrypts the raw chunk directly and leaves the queue
untouched; the extraction loop is marked `TODO: continue`). -/
theorem inject_inbound_never_removes_bytes (n : Noise) (payload : List Nat) :
    (inject_inbound_data n payload).rx_buffer_encrypted =
      n.rx_buffer_encrypted ++ payload := by
  unfold inject_inbound_data
  cases snowReadMessage n.recvNonce payload payload.length <;> rfl

/-- C3: the claimed frame layout (2-byte big-endian prefix equal to the
ciphertext length, followed by that many ciphertext bytes) fails on the code:
the prefix written for the 1-byte chunk `[42]` encodes `1` (the plaintext
length), the ciphertext produced by the cipher has length `17`
(plaintext + 16-byte tag), and the write itself panics for every deque layout
because only `2 + plaintext` bytes were reserved, leaving no room for the
tag. -/
theorem frame_length_field_bug :
    toBE16 [42].length = (0, 1) ∧
      (aeadEncrypt 0 [42]).length = 17 ∧
      ∀ split nonce, injectOutboundChunkBody split nonce [] [42] = none := by
  refine ⟨rfl, rfl, fun split nonce => chunkBody_empty_tx split nonce [42]⟩

/-- C4: the claimed chunk bound fails on the code: `chunks(65535)` splits a
65535-byte plaintext into a single chunk of length 65535, which exceeds the
claimed per-frame plaintext maximum `65535 - TAG_LEN = 65519`; the claimed
frame count for that length is `ceil(65535 / 65519) = 2`, not 1. -/
theorem chunk_bound_bug :
    chunks 65535 (List.replicate 65535 1) = [List.replicate 65535 1] ∧
      65535 - TAG_LEN < (List.replicate (65535 : Nat) (1 : Nat)).length ∧
      (65535 + (65535 - TAG_LEN) - 1) / (65535 - TAG_LEN) = 2 := by
  have hne : List.replicate (65535 : Nat) (1 : Nat) ≠ [] := by
    intro h
    have h2 := congrArg List.length h
    rw [List.length_replicate, List.length_nil] at h2
    exact absurd h2 (by decide)
  have hlen : (List.replicate (65535 : Nat) (1 : Nat)).length ≤ 65535 := by
    rw [List.length_replicate]
  refine ⟨chunks_eq_single hne hlen, ?_, by decide⟩
  rw [List.length_replicate]
  decide

/-- C5: the claimed `drain_into` contract fails on the code: with an empty
TransmitQueue and a 1-byte destination, `write_out` panics instead of
returning 0, because `destination.copy_from_slice(&to_write[..0])` is called
with mismatched lengths (1 vs 0) — for every deque layout `split`. -/
theorem write_out_empty_queue_panics (split : Nat) :
    write_out split noise0 [0] = none := by
  simp [write_out, noise0]

/-- C6: the claimed error surfacing fails on the code: feeding 18 bytes whose
tag does not verify makes `snow`'s decryption fail, yet `inject_inbound_data`
discards the `Result` (`let _written = ...`) and returns normally — the state
is updated (payload appended to the queue, decrypted buffer resized to zeros)
and no `AuthenticationFailed` is surfaced, nor is further processing aborted
(the function has no error channel at all). -/
theorem inject_inbound_swallows_auth_failure :
    aeadDecrypt 0 (List.replicate 18 7) = none ∧
      inject_inbound_data noise0 (List.replicate 18 7) =
        { sendNonce := 0
          recvNonce := 0
          rx_buffer_encrypted := List.replicate 18 7
          rx_buffer_decrypted := List.replicate 18 0
          tx_buffer_encrypted := [] } := by
  constructor
  · decide
  · decide

/-- C7: the claimed equivalence between the two-region vectorized write path
and the single-contiguous-buffer fallback fails on the code: on a fresh
session the vectorized path panics for every deque layout and every nonce,
while the fallback (spec §4.4/§9: one AEAD encryption of the whole chunk,
prefixed by the ciphertext length) produces a well-formed frame whose
ciphertext decrypts back to the chunk. -/
theorem vectorized_write_path_bug :
    (∀ split nonce, injectOutboundChunkBody split nonce [] [42] = none) ∧
      specFallbackFrame 0 [42] = 0 :: 17 :: aeadEncrypt 0 [42] ∧
      aeadDecrypt 0 ((specFallbackFrame 0 [42]).drop 2) = some [42] := by
  refine ⟨fun split nonce => chunkBody_empty_tx split nonce [42], rfl, by decide⟩

/-- C8: every chunk produced by `payload.chunks(65535)` is non-empty and at
most 65535 bytes long, so `u16::try_from(chunk.len())` always succeeds and
its `unwrap()` never panics. -/
theorem chunks_nonempty_le_u16max (payload c : List Nat)
    (h : c ∈ chunks 65535 payload) :
    c ≠ [] ∧ c.length ≤ 65535 ∧ u16_try_from c.length = some c.length := by
  have h2 := chunksGo_mem (n := 65535) (by decide) payload.length payload c h
  refine ⟨h2.1, h2.2, ?_⟩
  unfold u16_try_from
  simp [h2.2]

/-- Witness for C8 at the concrete payload `[7]`, whose single chunk is `[7]`. -/
theorem chunks_nonempty_le_u16max_witness :
    [7] ≠ ([] : List Nat) ∧ ([7] : List Nat).length ≤ 65535 ∧
      u16_try_from ([7] : List Nat).length = some 1 :=
  chunks_nonempty_le_u16max [7] [7] (by decide)

/-! ## `chain_information.rs`: data model

Modelled from the spec: `header.rs` (the `Header`/`HeaderRef`,
`BabeNextEpoch`/`BabeNextEpochRef`, `BabeNextConfig` and `GrandpaAuthority`
types and their `From` conversions) is not under `src/`.
`ChainInformationRef` is documented in `chain_information.rs` as "Equivalent
to a [`ChainInformation`] but referencing an existing structure", so each
`...Ref` type is modelled as an equivalent view carrying the same data
(borrows become the data itself), with the `From` conversions as the
structural maps between the owned and the borrowed representation, and
`clone`/`Copy`/`&[T] -> Vec<T>` as the identity on that data. -/

/-- `header::Header` (owned). -/
structure Header where
  parent_hash : List Nat
  number : Nat
  state_root : List Nat
  extrinsics_root : List Nat
  digest : List (List Nat)
deriving Repr, DecidableEq

/-- `header::HeaderRef<'a>` (borrowed view of a `Header`). -/
structure HeaderRef where
  parent_hash : List Nat
  number : Nat
  state_root : List Nat
  extrinsics_root : List Nat
  digest : List (List Nat)
deriving Repr, DecidableEq

/-- `From<&Header> for HeaderRef` (`(&info.finalized_block_header).into()`). -/
def Header.to_ref (h : Header) : HeaderRef :=
  ⟨h.parent_hash, h.number, h.state_root, h.extrinsics_root, h.digest⟩

/-- `From<HeaderRef> for Header` (`info.finalized_block_header.into()`). -/
def HeaderRef.to_owned (h : HeaderRef) : Header :=
  ⟨h.parent_hash, h.number, h.state_root, h.extrinsics_root, h.digest⟩

/-- `header::BabeNextEpoch` (owned). -/
structure BabeNextEpoch where
  authorities : List (List Nat × Nat)
  randomness : List Nat
deriving Repr, DecidableEq

/-- `header::BabeNextEpochRef<'a>` (borrowed view). -/
structure BabeNextEpochRef where
  authorities : List (List Nat × Nat)
  randomness : List Nat
deriving Repr, DecidableEq

/-- `From<&BabeNextEpoch> for BabeNextEpochRef` (`i.into()`). -/
def BabeNextEpoch.to_ref (e : BabeNextEpoch) : BabeNextEpochRef :=
  ⟨e.authorities, e.randomness⟩

/-- `From<BabeNextEpochRef> for BabeNextEpoch` (`e.clone().into()`). -/
def BabeNextEpochRef.to_owned (e : BabeNextEpochRef) : BabeNextEpoch :=
  ⟨e.authorities, e.randomness⟩

/-- `header::BabeNextConfig` (a `Copy` type, used as-is by both the owned and
the borrowed chain information). -/
structure BabeNextConfig where
  c : Nat × Nat
  allowed_slots : Nat
deriving Repr, DecidableEq

/-- `header::GrandpaAuthority`. -/
structure GrandpaAuthority where
  public_key : List Nat
  weight : Nat
deriving Repr, DecidableEq

/-- `FinalizedScheduledChange` (chain_information.rs lines 127-131). -/
structure FinalizedScheduledChange where
  trigger_block_height : Nat
  new_authorities_list : List GrandpaAuthority
deriving Repr, DecidableEq

/-- `ChainInformation` (chain_information.rs lines 29-68). -/
structure ChainInformation where
  finalized_block_header : Header
  babe_finalized_block1_slot_number : Option Nat
  babe_finalized_block_epoch_information : Option (BabeNextEpoch × BabeNextConfig)
  babe_finalized_next_epoch_transition : Option (BabeNextEpoch × BabeNextConfig)
  grandpa_after_finalized_block_authorities_set_id : Nat
  grandpa_finalized_triggered_authorities : List GrandpaAuthority
  grandpa_finalized_scheduled_changes : List FinalizedScheduledChange
deriving Repr, DecidableEq

/-- `ChainInformationRef<'a>` (chain_information.rs lines 133-159). -/
structure ChainInformationRef where
  finalized_block_header : HeaderRef
  babe_finalized_block1_slot_number : Option Nat
  babe_finalized_block_epoch_information :
    Option (BabeNextEpochRef × BabeNextConfig)
  babe_finalized_next_epoch_transition :
    Option (BabeNextEpochRef × BabeNextConfig)
  grandpa_after_finalized_block_authorities_set_id : Nat
  grandpa_finalized_triggered_authorities : List GrandpaAuthority
  grandpa_finalized_scheduled_changes : List FinalizedScheduledChange
deriving Repr, DecidableEq

/-- `impl From<&'a ChainInformation> for ChainInformationRef<'a>`
(chain_information.rs lines 161-180). -/
def ChainInformationRef.from_owned (info : ChainInformation) :
    ChainInformationRef where
  finalized_block_header := info.finalized_block_header.to_ref
  babe_finalized_block1_slot_number := info.babe_finalized_block1_slot_number
  babe_finalized_block_epoch_information :=
    info.babe_finalized_block_epoch_information.map fun ic => (ic.1.to_ref, ic.2)
  babe_finalized_next_epoch_transition :=
    info.babe_finalized_next_epoch_transition.map fun ic => (ic.1.to_ref, ic.2)
  grandpa_after_finalized_block_authorities_set_id :=
    info.grandpa_after_finalized_block_authorities_set_id
  grandpa_finalized_triggered_authorities :=
    info.grandpa_finalized_triggered_authorities
  grandpa_finalized_scheduled_changes := info.grandpa_finalized_scheduled_changes

/-- `impl From<ChainInformationRef<'a>> for ChainInformation`
(chain_information.rs lines 99-118). -/
def ChainInformation.from_ref (info : ChainInformationRef) :
    ChainInformation where
  finalized_block_header := info.finalized_block_header.to_owned
  babe_finalized_block1_slot_number := info.babe_finalized_block1_slot_number
  babe_finalized_block_epoch_information :=
    info.babe_finalized_block_epoch_information.map fun ec => (ec.1.to_owned, ec.2)
  babe_finalized_next_epoch_transition :=
    info.babe_finalized_next_epoch_transition.map fun ec => (ec.1.to_owned, ec.2)
  grandpa_after_finalized_block_authorities_set_id :=
    info.grandpa_after_finalized_block_authorities_set_id
  grandpa_finalized_triggered_authorities :=
    info.grandpa_finalized_triggered_authorities
  grandpa_finalized_scheduled_changes := info.grandpa_finalized_scheduled_changes

lemma header_roundtrip (h : Header) : h.to_ref.to_owned = h := by
  cases h; rfl

lemma epoch_roundtrip (e : BabeNextEpoch) :
    e.to_ref.to_owned = e := by
  cases e; rfl

/-! ## `ChainInformation::from_genesis_storage` (chain_information.rs 75-96)

Modelled from the spec: neither
`grandpa::chain_config::GrandpaGenesisConfiguration::from_genesis_storage` nor
`crate::calculate_genesis_block_header` is under `src/` (the spec declares
genesis-configuration parsing out of scope, §1), so both are taken as
parameters.  The Rust function passes the grandpa decoder a closure that looks
the key up in the cloned storage iterator, `unwrap`s the decoder's result (a
failure is a panic, modelled as `none`), and — when it returns at all — always
returns `Ok` of a record whose babe fields are `None`, whose authorities set
id is 0, whose scheduled-changes list is empty, and whose triggered
authorities come from the decoded genesis configuration. -/

/-- `grandpa::chain_config::GrandpaGenesisConfiguration` (not under src/). -/
structure GrandpaGenesisConfiguration where
  initial_authorities : List GrandpaAuthority
deriving Repr, DecidableEq

def ChainInformation.from_genesis_storage
    (grandpa_decode :
      (List Nat → Option (List Nat)) → Option GrandpaGenesisConfiguration)
    (calculate_genesis_block_header : List (List Nat × List Nat) → Header)
    (genesis_storage : List (List Nat × List Nat)) : Option ChainInformation :=
  match grandpa_decode (fun key =>
      (genesis_storage.find? fun kv => kv.1 = key).map Prod.snd) with
  | none => none
  | some cfg =>
      some
        { finalized_block_header := calculate_genesis_block_header genesis_storage
          babe_finalized_block1_slot_number := none
          babe_finalized_block_epoch_information := none
          babe_finalized_next_epoch_transition := none
          grandpa_after_finalized_block_authorities_set_id := 0
          grandpa_finalized_triggered_authorities := cfg.initial_authorities
          grandpa_finalized_scheduled_changes := [] }

/-! ## Claim theorems for `chain_information.rs` -/

/-- C9: converting a `ChainInformation` to a `ChainInformationRef` via
`From<&ChainInformation>` and back via `From<ChainInformationRef>` yields the
original value, field by field. -/
theorem chain_information_ref_roundtrip (ci : ChainInformation) :
    ChainInformation.from_ref (ChainInformationRef.from_owned ci) = ci := by
  cases ci with
  | mk hdr b1 bei bnet gid gta gsc =>
    simp only [ChainInformation.from_ref, ChainInformationRef.from_owned,
      Option.map_map, header_roundtrip]
    refine congrArg₂ (fun x y =>
      ChainInformation.mk hdr b1 x y gid gta gsc) ?_ ?_ <;>
      · cases' bei with p <;> cases' bnet with q <;>
          simp [epoch_roundtrip]

/-- C10: whenever `ChainInformation::from_genesis_storage` returns `Ok`, the
produced value satisfies the documented block-#0 invariants: the three babe
fields are `None`, the grandpa authorities set id is 0, and the scheduled
changes list is empty — for every grandpa decoder, genesis-header function
and genesis storage. -/
theorem from_genesis_storage_block0_invariants
    (grandpa_decode :
      (List Nat → Option (List Nat)) → Option GrandpaGenesisConfiguration)
    (hdr : List (List Nat × List Nat) → Header)
    (s : List (List Nat × List Nat)) (ci : ChainInformation)
    (h : ChainInformation.from_genesis_storage grandpa_decode hdr s = some ci) :
    ci.babe_finalized_block1_slot_number = none ∧
      ci.babe_finalized_block_epoch_information = none ∧
      ci.babe_finalized_next_epoch_transition = none ∧
      ci.grandpa_after_finalized_block_authorities_set_id = 0 ∧
      ci.grandpa_finalized_scheduled_changes = [] := by
  unfold ChainInformation.from_genesis_storage at h
  cases hd : grandpa_decode (fun key =>
      (s.find? fun kv => kv.1 = key).map Prod.snd) with
  | none => rw [hd] at h; exact absurd h (by simp)
  | some cfg =>
    rw [hd] at h
    cases h
    exact ⟨rfl, rfl, rfl, rfl, rfl⟩

/-- A concrete genesis header for the C10 witness. -/
def hdr0 : Header := ⟨[], 0, [], [], []⟩

/-- The chain information produced at the C10 witness input. -/
def ci0 : ChainInformation := ⟨hdr0, none, none, none, 0, [], []⟩

/-- Witness for C10: a trivial grandpa decoder and empty genesis storage make
`from_genesis_storage` return `Ok`, and the invariants hold there. -/
theorem from_genesis_storage_block0_invariants_witness :
    ci0.babe_finalized_block1_slot_number = none ∧
      ci0.babe_finalized_block_epoch_information = none ∧
      ci0.babe_finalized_next_epoch_transition = none ∧
      ci0.grandpa_after_finalized_block_authorities_set_id = 0 ∧
      ci0.grandpa_finalized_scheduled_changes = [] :=
  from_genesis_storage_block0_invariants
    (fun _ => some ⟨[]⟩) (fun _ => hdr0) [] ci0 rfl

end AvailLight
